import Mathlib

/-!
Verification of the bounded-concurrency Telegram scan orchestrator
(`src/channel_scanner.py`), as a shallow embedding in Lean 4.

Durations are modelled as rationals, Python identifiers as integers,
Python `None` by `Option`, and every fallible remote sub-request by an
explicit `Lookup` oracle value.  The definitions below mirror the
control flow of the Python source line by line where the claims depend
on it.
-/

/-- Outcome of one remote sub-request: a value, a permission-denied
exception (`ChatAdminRequiredError`), or any other exception. -/
inductive Lookup (α : Type) where
  | ok (val : α)
  | permDenied
  | err
deriving DecidableEq

/-- Constructor arguments of `ChannelScanner.__init__` (lines 32-44),
with the Python default values. -/
structure ScannerArgs where
  concurrency : Int := 16
  request_delay : ℚ := 1/5
  unsubscribe_ids : Option (List Int) := none
  request_timeout : ℚ := 60
  channel_timeout : ℚ := 100
  private_timeout : ℚ := 600
  private_timeout_ids : Option (List Int) := none
  private_text_timeout : ℚ := 2000
  private_text_timeout_ids : Option (List Int) := none

/-- The scanner state after construction: the fields assigned in
`__init__` (lines 60-76) that the scan logic reads. -/
structure ChannelScanner where
  concurrency : Int
  request_delay : ℚ
  unsubscribe_ids : List Int
  request_timeout : ℚ
  channel_timeout : ℚ
  private_timeout : ℚ
  private_timeout_ids : List Int
  private_text_timeout : ℚ
  private_text_timeout_ids : List Int

/-- `ChannelScanner.__init__` (lines 60-76): clamps concurrency to at
least 1, the pacing delay into [0, 0.05], every timeout to at least
1.0, and replaces `None` id sets by empty sets. -/
def mkChannelScanner (a : ScannerArgs) : ChannelScanner where
  concurrency := max 1 a.concurrency
  request_delay := max 0 (min a.request_delay (1/20))
  unsubscribe_ids := a.unsubscribe_ids.getD []
  request_timeout := max 1 a.request_timeout
  channel_timeout := max 1 a.channel_timeout
  private_timeout := max 1 a.private_timeout
  private_timeout_ids := a.private_timeout_ids.getD []
  private_text_timeout := max 1 a.private_text_timeout
  private_text_timeout_ids := a.private_text_timeout_ids.getD []

/-- Effective per-target timeout chosen in `process_private_chat`
(lines 1120-1126): the extended-text override set is consulted first,
then the private override set, then the default request timeout. -/
def effectiveTimeout (s : ChannelScanner) (uid : Int) : ℚ :=
  if uid ∈ s.private_text_timeout_ids then s.private_text_timeout
  else if uid ∈ s.private_timeout_ids then s.private_timeout
  else s.request_timeout

/-- A scanner whose target id 7 belongs to both override sets, with the
text-stats override carrying 10 seconds and the private override
carrying 50 seconds. -/
def overlapScanner : ChannelScanner :=
  mkChannelScanner
    { private_timeout := 50
      private_timeout_ids := some [7]
      private_text_timeout := 10
      private_text_timeout_ids := some [7] }

/-- C10: every constructed scanner has concurrency at least 1, every
timeout at least 1 second, and a pacing delay in [0, 0.05]; the default
requested delay of 0.2 s is clamped down to 0.05 s. -/
theorem c10_constructor_clamps (a : ScannerArgs) :
    1 ≤ (mkChannelScanner a).concurrency ∧
    1 ≤ (mkChannelScanner a).request_timeout ∧
    1 ≤ (mkChannelScanner a).channel_timeout ∧
    1 ≤ (mkChannelScanner a).private_timeout ∧
    1 ≤ (mkChannelScanner a).private_text_timeout ∧
    0 ≤ (mkChannelScanner a).request_delay ∧
    (mkChannelScanner a).request_delay ≤ 1/20 ∧
    (mkChannelScanner {}).request_delay = 1/20 := by
  refine ⟨le_max_left _ _, le_max_left _ _, le_max_left _ _, le_max_left _ _,
    le_max_left _ _, le_max_left _ _, ?_, ?_⟩
  · exact max_le (by norm_num) (min_le_right _ _)
  · simp only [mkChannelScanner]
    norm_num

/-- C2 counterexample: id 7 lies in both override sets with durations
10 s (text) and 50 s (private), yet the effective timeout is 10 s, not
the longest matching duration 50 s. -/
theorem c2_counterexample_precedence_not_longest :
    (7 : Int) ∈ overlapScanner.private_text_timeout_ids ∧
    (7 : Int) ∈ overlapScanner.private_timeout_ids ∧
    overlapScanner.private_text_timeout = 10 ∧
    overlapScanner.private_timeout = 50 ∧
    effectiveTimeout overlapScanner 7 = 10 ∧
    effectiveTimeout overlapScanner 7 ≠ 50 := by
  refine ⟨?_, ?_, ?_, ?_, ?_, ?_⟩ <;> decide

/-- C2 amended: when an id belongs to more than one override set the
choice is by fixed precedence, not by duration: the extended-text
override always wins, whatever the two durations are. -/
theorem c2_amended_text_override_precedence (s : ChannelScanner) (uid : Int)
    (h : uid ∈ s.private_text_timeout_ids) :
    effectiveTimeout s uid = s.private_text_timeout := by
  simp [effectiveTimeout, h]

/-- C2 amended, witness at the concrete overlapping scanner. -/
theorem c2_amended_witness :
    effectiveTimeout overlapScanner 7 = overlapScanner.private_text_timeout :=
  c2_amended_text_override_precedence overlapScanner 7 (by decide)

/-- Result classes of one attempt of the body of `get_channel_info`:
the body returns a payload, raises `FloodWaitError` with a wait time,
or raises some other exception (lines 339-554). -/
inductive AttemptOutcome (α : Type) where
  | ok (payload : α)
  | flood (seconds : ℚ)
  | err
deriving DecidableEq

/-- Accumulated effect of running `get_channel_info` over a finite
trace of attempt outcomes: the final returned value, the total time
slept inside the fetch, and the number of retries taken. -/
structure RetryRun (α : Type) where
  result : Option α
  sleptSeconds : ℚ
  retries : Nat
deriving DecidableEq

/-- Exception handling of `get_channel_info` (lines 548-554): a
successful attempt returns its payload, `FloodWaitError` sleeps for the
server-specified wait and recursively re-runs the whole fetch, and any
other exception returns `None`.  The argument lists the outcomes of the
successive attempts. -/
def getChannelInfoRetry {α : Type} : List (AttemptOutcome α) → RetryRun α
  | [] => ⟨none, 0, 0⟩
  | .ok p :: _ => ⟨some p, 0, 0⟩
  | .err :: _ => ⟨none, 0, 0⟩
  | .flood w :: rest =>
      let r := getChannelInfoRetry rest
      ⟨r.result, w + r.sleptSeconds, r.retries + 1⟩

/-- C3 counterexample: on a trace with one rate-limit signal of 5 s
followed by success, the fetch sleeps 5 s internally, contradicting
the claim that the fetch performs no internal sleep. -/
theorem c3_counterexample_internal_sleep :
    (getChannelInfoRetry
        [AttemptOutcome.flood 5, AttemptOutcome.ok ()]).sleptSeconds = 5 ∧
    (getChannelInfoRetry
        [AttemptOutcome.flood 5, AttemptOutcome.ok ()]).sleptSeconds ≠ 0 := by
  refine ⟨?_, ?_⟩ <;> norm_num [getChannelInfoRetry]

/-- C3 amended: the rate-limit handling of `get_channel_info` is an
unbounded recursive retry: after n rate-limit signals of w seconds each
followed by a success, the fetch returns the success payload, having
retried n times (for every n, so no fixed maximum exists) and having
slept n * w seconds internally; no distinct RateLimitedRetry terminal
outcome exists in the result type. -/
theorem c3_amended_unbounded_recursive_retry {α : Type} (n : Nat) (w : ℚ)
    (p : α) :
    getChannelInfoRetry
        (List.replicate n (AttemptOutcome.flood w) ++ [AttemptOutcome.ok p]) =
      ⟨some p, n * w, n⟩ := by
  induction n with
  | zero => simp [getChannelInfoRetry]
  | succ m ih =>
      simp only [List.replicate_succ, List.cons_append, getChannelInfoRetry,
        List.append_eq, ih]
      simp only [RetryRun.mk.injEq, true_and, and_true]
      push_cast
      ring

/-- A channel or group entity as enumerated from the dialog list: the
attributes of a telethon `Channel` object that the scanner reads. -/
structure Entity where
  id : Int
  title : Option String
  username : Option String
  broadcast : Bool
  megagroup : Bool
  gigagroup : Bool
  participants_count : Option Nat
  access_hash : Option Int
deriving DecidableEq

/-- Value of the `participants_count` field of a result record: a
Python int, a Python str, or `None`. -/
inductive PartCount where
  | unknown
  | num (n : Nat)
  | txt (s : String)
deriving DecidableEq

/-- The `full_chat` payload of a successful `GetFullChannelRequest`:
the two attributes the scanner reads from it. -/
structure FullChat where
  participants_count : Option Nat
  linked_chat_id : Option Int
deriving DecidableEq

/-- One topic object in a `GetForumTopicsRequest` response page. -/
structure ForumTopic where
  title : Option String
  tid : Nat
  topMessage : Nat
deriving DecidableEq

/-- Responses of the remote API for one entity during one fetch: the
full-channel lookup, the participant enumeration stream length, the
successive forum-topic pages (of the entity itself and of its linked
chat), the linked-entity resolution (megagroup flag when resolved), and
the last-message lookup. -/
structure RemoteEnv where
  fullInfo : Lookup FullChat
  participantsStream : Lookup Nat
  forumPages : Nat → Lookup (List ForumTopic)
  linkedEntity : Lookup Bool
  linkedForumPages : Nat → Lookup (List ForumTopic)
  lastMessage : Lookup (Option String)

/-- Python `s or default` on an optional string: `None` and the empty
string are falsy. -/
def pyStrOr (s : Option String) (d : String) : String :=
  match s with
  | some t => if t = "" then d else t
  | none => d

/-- Link construction shared by `get_channel_info` (lines 483-486) and
`_build_basic_channel_info` (lines 96-99): a truthy username gives a
public link, otherwise a resolve link over the id. -/
def channelLink (e : Entity) : String :=
  match e.username with
  | some u =>
      if u = "" then "tg://resolve?domain=" ++ toString e.id
      else "https://t.me/" ++ u
  | none => "tg://resolve?domain=" ++ toString e.id

/-- Part of `_fetch_participants_count` after the entity-attribute
check (lines 158-177): reads the count from an already-fetched full
payload when one was passed in, otherwise issues its own
`GetFullChannelRequest`; `ChatAdminRequiredError` there becomes a
marker string and any other exception yields `None`. -/
def fetchParticipantsFromFull (fullInfoOpt : Option FullChat)
    (fullLookup : Lookup FullChat) : PartCount :=
  match fullInfoOpt with
  | some fc =>
      match fc.participants_count with
      | some n => .num n
      | none => .unknown
  | none =>
      match fullLookup with
      | .ok fc =>
          match fc.participants_count with
          | some n => .num n
          | none => .unknown
      | .permDenied => .txt "Требуются права администратора"
      | .err => .unknown

/-- `_fetch_participants_count` (lines 139-177): a truthy
`participants_count` attribute on the entity wins; otherwise the full
payloads are consulted. -/
def fetchParticipantsCount (e : Entity) (fullInfoOpt : Option FullChat)
    (fullLookup : Lookup FullChat) : PartCount :=
  match e.participants_count with
  | some n =>
      if n ≠ 0 then .num n
      else fetchParticipantsFromFull fullInfoOpt fullLookup
  | none => fetchParticipantsFromFull fullInfoOpt fullLookup

/-- The fallback counting loop of `get_channel_info` (lines 392-396):
walks the participant stream of length m, incrementing a counter and
breaking as soon as the counter reaches 10000. -/
def countParticipants : Nat → Nat → Nat
  | 0, count => count
  | m + 1, count =>
      if 10000 ≤ count + 1 then count + 1
      else countParticipants m (count + 1)

/-- The fallback count-by-enumeration of `get_channel_info` (lines
388-401): runs the capped counting loop over the stream; a count below
the ceiling is reported exactly, the ceiling becomes the marker
">10000", and any exception leaves the count `None`. -/
def fallbackParticipantsCount (stream : Lookup Nat) : PartCount :=
  match stream with
  | .ok m =>
      let count := countParticipants m 0
      if count < 10000 then .num count else .txt ">10000"
  | .permDenied => .unknown
  | .err => .unknown

/-- Title collection of `_fetch_forum_topics` (lines 253-257): appends
each truthy, not yet seen title of one response page. -/
def addTopicTitles (topics : List String) : List ForumTopic → List String
  | [] => topics
  | t :: ts =>
      match t.title with
      | some title =>
          if title ≠ "" ∧ title ∉ topics then
            addTopicTitles (topics ++ [title]) ts
          else addTopicTitles topics ts
      | none => addTopicTitles topics ts

/-- The pagination loop of `_fetch_forum_topics` (lines 220-284), with
the iteration budget (10 minus the iterations already done) as fuel.
Arguments after the fuel: the index of the next request, the current
offsets, the remaining count, and the titles collected so far.  A
permission-denied or other exception aborts the whole loop and returns
the titles collected so far (lines 276-283). -/
def forumTopicsLoop (pages : Nat → Lookup (List ForumTopic)) (limit : Nat) :
    Nat → Nat → Nat → Nat → Nat → List String → List String
  | 0, _, _, _, _, topics => topics
  | _ + 1, _, _, _, 0, topics => topics
  | fuel + 1, callIdx, offId, offTopic, remaining + 1, topics =>
      match pages callIdx with
      | .permDenied => topics
      | .err => topics
      | .ok resultTopics =>
          if resultTopics.isEmpty then topics
          else
            let topics2 := addTopicTitles topics resultTopics
            if resultTopics.length < min (remaining + 1) 100 then topics2
            else
              match resultTopics.getLast? with
              | none => topics2
              | some last =>
                  if last.tid = offTopic ∧ last.topMessage = offId then topics2
                  else
                    forumTopicsLoop pages limit fuel (callIdx + 1)
                      last.topMessage last.tid (limit - topics2.length) topics2

/-- `_fetch_forum_topics` (lines 207-284) with its default limit of
100: up to 10 iterations starting from zero offsets. -/
def fetchForumTopics (pages : Nat → Lookup (List ForumTopic)) : List String :=
  forumTopicsLoop pages 100 10 0 0 0 100 []

/-- `_fetch_last_message_date` (lines 286-302): the date of the newest
message, with every exception absorbed into `None`. -/
def fetchLastMessageDate (lookup : Lookup (Option String)) : Option String :=
  match lookup with
  | .ok d => d
  | .permDenied => none
  | .err => none

/-- One result record of the channel scan: the keys of the result
dictionary that the claims and the report sort read. -/
structure ChannelRecord where
  rid : Int
  title : String
  username : String
  is_broadcast : Bool
  is_megagroup : Bool
  is_gigagroup : Bool
  access_hash : Option String
  scanned_at : String
  participants_count : PartCount
  is_public : Bool
  link : String
  forum_topics : List String
  forum_topics_count : Nat
  last_message_date : Option String
  unsubscribed_status : String
  processing_status : String
deriving DecidableEq

/-- `_build_basic_channel_info` (lines 78-123): the placeholder record
synthesized on timeout or error, carrying the fields already known from
enumeration, an empty participants count and topic list, and the given
status. -/
def buildBasicChannelInfo (e : Entity) (lastMsg : Option String)
    (status : String) (now : String) : ChannelRecord where
  rid := e.id
  title := pyStrOr e.title "Без названия"
  username := pyStrOr e.username "Нет username"
  is_broadcast := e.broadcast
  is_megagroup := e.megagroup
  is_gigagroup := e.gigagroup
  access_hash := e.access_hash.map (fun h => toString h)
  scanned_at := now
  participants_count := .unknown
  is_public := e.username.isSome
  link := channelLink e
  forum_topics := []
  forum_topics_count := 0
  last_message_date := lastMsg
  unsubscribed_status := "Нет"
  processing_status := status

/-- Final value of the local variable `participants_count` of
`get_channel_info` (lines 366-401): the sub-lookup result, completed by
the capped count-by-enumeration fallback for non-broadcast entities
when it is `None`. -/
def computedParticipantsCount (e : Entity) (env : RemoteEnv) : PartCount :=
  let fullInfoOpt : Option FullChat :=
    match env.fullInfo with
    | .ok fc => some fc
    | .permDenied => none
    | .err => none
  match fetchParticipantsCount e fullInfoOpt env.fullInfo with
  | .unknown =>
      if e.broadcast = false then fallbackParticipantsCount env.participantsStream
      else .unknown
  | x => x

/-- The body of `get_channel_info` (lines 339-546), the success path of
one fetch: gathers the full payload, the forum topics of the entity and
possibly of its linked chat, and the last-message date, and assembles
the result record with status "Ок".  The participants count is computed
into a local variable (`computedParticipantsCount`, lines 366-401) but
never assigned into the result dictionary: no
`channel_data["participants_count"] = ...` statement exists, so the
success record has no participants key and every later read of it via
`.get` yields `None`, modelled as `.unknown`. -/
def getChannelInfoBody (e : Entity) (env : RemoteEnv)
    (lastMsgParam : Option String) (now : String) : ChannelRecord :=
  let fullInfoOpt : Option FullChat :=
    match env.fullInfo with
    | .ok fc => some fc
    | .permDenied => none
    | .err => none
  let linkedChatId : Option Int :=
    match fullInfoOpt with
    | some fc => fc.linked_chat_id
    | none => none
  let linkedMegagroup : Option Bool :=
    match linkedChatId with
    | some lid =>
        if lid ≠ 0 then
          match env.linkedEntity with
          | .ok b => some b
          | .permDenied => none
          | .err => none
        else none
    | none => none
  let mainTopics : List String :=
    if e.megagroup then fetchForumTopics env.forumPages else []
  let forumTopics : List String :=
    if mainTopics.isEmpty then
      match linkedMegagroup with
      | some true => fetchForumTopics env.linkedForumPages
      | _ => mainTopics
    else mainTopics
  let lmd : Option String :=
    match lastMsgParam with
    | some d => if d = "" then fetchLastMessageDate env.lastMessage else some d
    | none => fetchLastMessageDate env.lastMessage
  { rid := e.id
    title := pyStrOr e.title "Без названия"
    username := pyStrOr e.username "Нет username"
    is_broadcast := e.broadcast
    is_megagroup := e.megagroup
    is_gigagroup := e.gigagroup
    access_hash := e.access_hash.map (fun h => toString h)
    scanned_at := now
    participants_count := .unknown
    is_public := e.username.isSome
    link := channelLink e
    forum_topics := forumTopics
    forum_topics_count := forumTopics.length
    last_message_date := lmd
    unsubscribed_status := "Нет"
    processing_status := "Ок" }

/-- How the guarded call `asyncio.wait_for(get_channel_info ...)` in
`process_channel` ends for one target: the fetch completes against a
remote environment, or returns `None` after a terminal error, or the
timeout elapses first. -/
inductive GetInfoRun where
  | completes (env : RemoteEnv)
  | returnsNone
  | timesOut

/-- `process_channel` (lines 592-659): a timeout synthesizes the basic
placeholder with status "Таймаут"; a truthy result then goes through
the unsubscribe hook, which only rewrites `unsubscribed_status`; a
`None` result is replaced by the basic placeholder with status
"Ошибка". -/
def processChannel (s : ChannelScanner) (e : Entity) (lastMsg : Option String)
    (run : GetInfoRun) (unsubOk : Bool) (now : String) : ChannelRecord :=
  let info : Option ChannelRecord :=
    match run with
    | .completes env => some (getChannelInfoBody e env lastMsg now)
    | .returnsNone => none
    | .timesOut => some (buildBasicChannelInfo e lastMsg "Таймаут" now)
  match info with
  | some ci =>
      if ci.rid ∈ s.unsubscribe_ids then
        if unsubOk then { ci with unsubscribed_status := "Да" }
        else { ci with unsubscribed_status := "Ошибка отписки" }
      else { ci with unsubscribed_status := "Нет" }
  | none => buildBasicChannelInfo e lastMsg "Ошибка" now

/-- One entry of the dialog list returned by `get_dialogs`: either a
channel-like entity with the optional date of its newest message, or a
dialog of some other kind that the filter skips (lines 576-585). -/
inductive Dialog where
  | channelDialog (e : Entity) (msgDate : Option String)
  | other

/-- The filter of `scan_all_channels` (lines 574-585): keeps the
channel entities, in dialog order. -/
def enumerateChannels : List Dialog → List Entity
  | [] => []
  | .channelDialog e _ :: rest => e :: enumerateChannels rest
  | .other :: rest => enumerateChannels rest

/-- The `last_message_map` writes of `scan_all_channels` (lines
581-584), as the ordered list of dictionary assignments. -/
def buildLastMessageMap : List Dialog → List (Int × Option String)
  | [] => []
  | .channelDialog e d :: rest => (e.id, d) :: buildLastMessageMap rest
  | .other :: rest => buildLastMessageMap rest

/-- Dictionary lookup `last_message_map.get(key)` where later
assignments overwrite earlier ones. -/
def lastMessageLookup : List (Int × Option String) → Int → Option String
  | [], _ => none
  | (k2, v) :: rest, k =>
      if rest.any (fun p => p.1 == k) then lastMessageLookup rest k
      else if k2 == k then v else none

/-- The task list and gather of `scan_all_channels` (lines 661-665):
one `process_channel` task per enumerated entity, indexed from 1, with
the per-task fetch outcome and unsubscribe-action result supplied by
the environment. -/
def processAllChannels (s : ChannelScanner)
    (lastMap : List (Int × Option String)) (sim : Nat → GetInfoRun)
    (unsub : Nat → Bool) (now : String) : Nat → List Entity → List ChannelRecord
  | _, [] => []
  | i, e :: rest =>
      processChannel s e (lastMessageLookup lastMap e.id) (sim i) (unsub i) now ::
        processAllChannels s lastMap sim unsub now (i + 1) rest

/-- `scan_all_channels` (lines 556-677): resets `channels_data` to the
empty list, then either propagates an enumeration failure (leaving the
collected state empty) or enumerates, processes every entity, and
collects the results.  The first component is the final
`channels_data` state, the second the outcome of the call. -/
def scanAllChannels (s : ChannelScanner)
    (dialogsResult : Except String (List Dialog)) (sim : Nat → GetInfoRun)
    (unsub : Nat → Bool) (now : String) :
    List ChannelRecord × Except String (List ChannelRecord) :=
  match dialogsResult with
  | .error msg => ([], .error msg)
  | .ok dialogs =>
      let channels := enumerateChannels dialogs
      let lastMap := buildLastMessageMap dialogs
      let rs := processAllChannels s lastMap sim unsub now 1 channels
      (rs, .ok rs)

/-- Every per-target outcome class yields a record whose id is the id
of the processed entity. -/
theorem processChannel_rid (s : ChannelScanner) (e : Entity)
    (lastMsg : Option String) (run : GetInfoRun) (unsubOk : Bool)
    (now : String) :
    (processChannel s e lastMsg run unsubOk now).rid = e.id := by
  cases run <;>
    simp only [processChannel, getChannelInfoBody, buildBasicChannelInfo] <;>
    split <;> (try split) <;> rfl

/-- The collected records keep the enumeration ids positionally. -/
theorem processAllChannels_map_rid (s : ChannelScanner)
    (lastMap : List (Int × Option String)) (sim : Nat → GetInfoRun)
    (unsub : Nat → Bool) (now : String) (i : Nat) (es : List Entity) :
    (processAllChannels s lastMap sim unsub now i es).map ChannelRecord.rid =
      es.map Entity.id := by
  induction es generalizing i with
  | nil => rfl
  | cons e rest ih =>
      simp only [processAllChannels, List.map_cons, processChannel_rid, ih]

/-- C1: for every enumeration and every mix of per-target outcomes
(success, timeout, error), the scan returns a collected list with
exactly one record per enumerated entity, in enumeration order and with
matching ids: no duplicates and no omissions. -/
theorem c1_scan_exactly_one_record_per_target (s : ChannelScanner)
    (dialogs : List Dialog) (sim : Nat → GetInfoRun) (unsub : Nat → Bool)
    (now : String) :
    ∃ rs, (scanAllChannels s (.ok dialogs) sim unsub now).2 = .ok rs ∧
      rs.length = (enumerateChannels dialogs).length ∧
      rs.map ChannelRecord.rid = (enumerateChannels dialogs).map Entity.id := by
  refine ⟨processAllChannels s (buildLastMessageMap dialogs) sim unsub now 1
    (enumerateChannels dialogs), rfl, ?_, ?_⟩
  · have h := processAllChannels_map_rid s (buildLastMessageMap dialogs) sim
      unsub now 1 (enumerateChannels dialogs)
    calc (processAllChannels s (buildLastMessageMap dialogs) sim unsub now 1
            (enumerateChannels dialogs)).length
        = ((processAllChannels s (buildLastMessageMap dialogs) sim unsub now 1
            (enumerateChannels dialogs)).map ChannelRecord.rid).length := by
          rw [List.length_map]
      _ = ((enumerateChannels dialogs).map Entity.id).length := by rw [h]
      _ = (enumerateChannels dialogs).length := by rw [List.length_map]
  · exact processAllChannels_map_rid s (buildLastMessageMap dialogs) sim unsub
      now 1 (enumerateChannels dialogs)

/-- C5: a target whose fetch times out yields the synthesized
placeholder: the record carries the id, the three kind flags and the
pre-fetch last-message date of the target, with processing status
"Таймаут", and a row is present for the target. -/
theorem c5_timeout_placeholder_fields (s : ChannelScanner) (e : Entity)
    (lastMsg : Option String) (unsubOk : Bool) (now : String) :
    (processChannel s e lastMsg .timesOut unsubOk now).rid = e.id ∧
    (processChannel s e lastMsg .timesOut unsubOk now).is_broadcast =
      e.broadcast ∧
    (processChannel s e lastMsg .timesOut unsubOk now).is_megagroup =
      e.megagroup ∧
    (processChannel s e lastMsg .timesOut unsubOk now).is_gigagroup =
      e.gigagroup ∧
    (processChannel s e lastMsg .timesOut unsubOk now).last_message_date =
      lastMsg ∧
    (processChannel s e lastMsg .timesOut unsubOk now).processing_status =
      "Таймаут" := by
  simp only [processChannel, buildBasicChannelInfo]
  split <;> (try split) <;> exact ⟨rfl, rfl, rfl, rfl, rfl, rfl⟩

/-- C6: a failing enumeration call makes the whole scan propagate the
failure with the collected state left empty, and this is the only
fatal failure: with any successful enumeration, any mix of per-target
outcomes still yields a collected report, never an error. -/
theorem c6_enumeration_failure_fatal_only (s : ChannelScanner) (msg : String)
    (sim : Nat → GetInfoRun) (unsub : Nat → Bool) (now : String) :
    scanAllChannels s (.error msg) sim unsub now = ([], .error msg) ∧
    ∀ dialogs, ∃ rs,
      (scanAllChannels s (.ok dialogs) sim unsub now).2 = .ok rs := by
  exact ⟨rfl, fun dialogs => ⟨_, rfl⟩⟩

/-- Python `str.isdigit` on the strings the scanner produces: the empty
string is not a digit string. -/
def pyIsDigit (s : String) : Bool := !s.isEmpty && s.all Char.isDigit

/-- Python `int` on a digit string. -/
def digitsToNat (s : String) : Nat :=
  s.foldl (fun acc c => acc * 10 + (c.toNat - 48)) 0

/-- `_participants_sort_key` (lines 847-862): an int counts as itself,
a digit string as its value, and everything else (including `None` and
the ">10000" marker) as 0. -/
def participantsSortKey (c : ChannelRecord) : Nat :=
  match c.participants_count with
  | .num n => n
  | .txt s => if pyIsDigit s then digitsToNat s else 0
  | .unknown => 0

/-- The presentation sort of `_build_xlsx_rows` (lines 784-788):
`sorted` by the participants key, descending. -/
def sortChannelsByParticipants (l : List ChannelRecord) : List ChannelRecord :=
  l.mergeSort (fun a b => participantsSortKey b ≤ participantsSortKey a)

/-- C7: the presentation sort is a permutation of the collected report:
it never changes the number of rows, and an id occurs among the sorted
rows exactly when it occurs among the collected rows. -/
theorem c7_sort_is_permutation (l : List ChannelRecord) :
    (sortChannelsByParticipants l).length = l.length ∧
    ∀ i : Int, (∃ r ∈ sortChannelsByParticipants l, r.rid = i) ↔
      (∃ r ∈ l, r.rid = i) := by
  have hp : (sortChannelsByParticipants l).Perm l :=
    List.mergeSort_perm l _
  refine ⟨hp.length_eq, fun i => ?_⟩
  constructor
  · rintro ⟨r, hr, hi⟩
    exact ⟨r, hp.mem_iff.mp hr, hi⟩
  · rintro ⟨r, hr, hi⟩
    exact ⟨r, hp.mem_iff.mpr hr, hi⟩

/-- The counting loop counts past its starting value up to the ceiling:
starting below 10000 it returns the smaller of start+m and 10000. -/
theorem countParticipants_eq_min (m : Nat) :
    ∀ count, count < 10000 →
      countParticipants m count = min (count + m) 10000 := by
  induction m with
  | zero =>
      intro count h
      simp only [countParticipants, Nat.add_zero]
      omega
  | succ k ih =>
      intro count h
      simp only [countParticipants]
      by_cases hc : 10000 ≤ count + 1
      · simp only [if_pos hc]
        omega
      · simp only [if_neg hc]
        rw [ih (count + 1) (by omega)]
        omega

/-- C8: the fallback count-by-enumeration counts at most 10000
participants; when the stream reaches the ceiling the reported value is
the marker ">10000", and otherwise it is the exact stream length,
strictly below 10000. -/
theorem c8_fallback_count_ceiling (m : Nat) :
    countParticipants m 0 ≤ 10000 ∧
    (10000 ≤ m → fallbackParticipantsCount (.ok m) = .txt ">10000") ∧
    (m < 10000 → fallbackParticipantsCount (.ok m) = .num m) := by
  have hm := countParticipants_eq_min m 0 (by omega)
  simp only [Nat.zero_add] at hm
  refine ⟨by omega, ?_, ?_⟩
  · intro h
    simp only [fallbackParticipantsCount, hm]
    rw [if_neg (by omega)]
  · intro h
    simp only [fallbackParticipantsCount, hm]
    rw [if_pos (by omega)]
    congr 1
    omega

/-- C8 witness at a stream of 10500 participants and one of 3. -/
theorem c8_fallback_count_witness :
    countParticipants 10500 0 ≤ 10000 ∧
    fallbackParticipantsCount (.ok 10500) = .txt ">10000" ∧
    fallbackParticipantsCount (.ok 3) = .num 3 :=
  ⟨(c8_fallback_count_ceiling 10500).1,
    (c8_fallback_count_ceiling 10500).2.1 (by norm_num),
    (c8_fallback_count_ceiling 3).2.2 (by norm_num)⟩

/-- A permission-denied (or any) exception on the first topics request
aborts the pagination loop immediately with the titles collected so
far. -/
theorem forumTopicsLoop_permDenied (pages : Nat → Lookup (List ForumTopic))
    (limit fuel callIdx offId offTopic remaining : Nat) (topics : List String)
    (h : pages callIdx = .permDenied) (hfuel : fuel ≠ 0) (hrem : remaining ≠ 0) :
    forumTopicsLoop pages limit fuel callIdx offId offTopic remaining topics =
      topics := by
  cases fuel with
  | zero => exact absurd rfl hfuel
  | succ f =>
      cases remaining with
      | zero => exact absurd rfl hrem
      | succ r => simp only [forumTopicsLoop, h]

/-- A forum supergroup whose lookups are all permission-denied. -/
def permDeniedEntity : Entity where
  id := 42
  title := some "Форум"
  username := none
  broadcast := false
  megagroup := true
  gigagroup := false
  participants_count := none
  access_hash := none

/-- A remote environment that denies every sub-lookup. -/
def permDeniedEnv : RemoteEnv where
  fullInfo := .permDenied
  participantsStream := .err
  forumPages := fun _ => .permDenied
  linkedEntity := .err
  linkedForumPages := fun _ => .err
  lastMessage := .err

/-- C9: the success record of a fetch never carries a participants
count at all, and at a fetch whose full-channel lookup raises
permission-denied the sub-lookup does compute the admin-rights marker,
the fetch still completes as a success record (status "Ок", empty
topics list, nothing propagated), yet the marker is discarded: the
record's participants field reads as `None`, not as the marker. -/
theorem c9_marker_computed_but_dropped (e : Entity) (env : RemoteEnv)
    (lastMsg : Option String) (now : String) :
    (getChannelInfoBody e env lastMsg now).participants_count = .unknown ∧
    computedParticipantsCount permDeniedEntity permDeniedEnv =
      .txt "Требуются права администратора" ∧
    (getChannelInfoBody permDeniedEntity permDeniedEnv none
        "2024").forum_topics = [] ∧
    (getChannelInfoBody permDeniedEntity permDeniedEnv none
        "2024").processing_status = "Ок" :=
  ⟨rfl, rfl, rfl, rfl⟩

/-- State of the pool during one scan run: how many targets still wait
for a semaphore slot, hold a slot, and have finished. -/
structure PoolState where
  pending : Nat
  running : Nat
  done : Nat
deriving DecidableEq

/-- One scheduling step of the semaphore discipline of
`process_channel` (lines 590-626): a pending target may enter the
`async with semaphore` block only while fewer than cap targets hold a
slot, and a running target may leave its block. -/
inductive PoolStep (cap : Nat) : PoolState → PoolState → Prop where
  | acquire (st : PoolState) (hp : 0 < st.pending) (hr : st.running < cap) :
      PoolStep cap st ⟨st.pending - 1, st.running + 1, st.done⟩
  | release (st : PoolState) (hr : 0 < st.running) :
      PoolStep cap st ⟨st.pending, st.running - 1, st.done + 1⟩

/-- States of a run over n targets reachable from the initial state in
which all n targets are pending. -/
inductive PoolReachable (cap n : Nat) : PoolState → Prop where
  | init : PoolReachable cap n ⟨n, 0, 0⟩
  | step (s t : PoolState) (hs : PoolReachable cap n s)
      (hst : PoolStep cap s t) : PoolReachable cap n t

/-- The semaphore invariant: no reachable state has more targets
running than the capacity. -/
theorem poolReachable_running_le (cap n : Nat) (st : PoolState)
    (h : PoolReachable cap n st) : st.running ≤ cap := by
  induction h with
  | init => exact Nat.zero_le cap
  | step s t hs hst ih =>
      cases hst with
      | acquire hp hr => exact hr
      | release hr => exact le_trans (Nat.sub_le _ _) ih

/-- Capacity handed to `asyncio.Semaphore(self.concurrency)` (line
590). -/
def semCapacity (s : ChannelScanner) : Nat := s.concurrency.toNat

/-- C4: at every reachable state of a scan run, at most the configured
cap of targets is running, and the cap is at least 1 even when the
constructor received a non-positive concurrency value. -/
theorem c4_concurrency_cap_invariant (a : ScannerArgs) (n : Nat)
    (st : PoolState)
    (h : PoolReachable (semCapacity (mkChannelScanner a)) n st) :
    st.running ≤ semCapacity (mkChannelScanner a) ∧
    1 ≤ semCapacity (mkChannelScanner a) := by
  refine ⟨poolReachable_running_le _ _ _ h, ?_⟩
  have hmax : (1 : Int) ≤ max 1 a.concurrency := le_max_left _ _
  simp only [semCapacity, mkChannelScanner]
  omega

/-- Constructor arguments with a non-positive concurrency value. -/
def negativeConcurrencyArgs : ScannerArgs := { concurrency := -5 }

/-- C4 witness at the initial state of a run over three targets with
the scanner built from a negative concurrency value. -/
theorem c4_concurrency_cap_witness :
    (⟨3, 0, 0⟩ : PoolState).running ≤
      semCapacity (mkChannelScanner negativeConcurrencyArgs) ∧
    1 ≤ semCapacity (mkChannelScanner negativeConcurrencyArgs) :=
  c4_concurrency_cap_invariant negativeConcurrencyArgs 3 ⟨3, 0, 0⟩
    PoolReachable.init
